import Mathlib

/-!
Verification of the calories-burnt prediction pipeline
(`calories-burnt-predictor-model.ipynb`).

The notebook is a linear batch pipeline over one tabular dataset:
gender encoding, BMI, age buckets, interaction terms, a z-score outlier
filter, a seeded train/test split, a scaler+regressor pipeline with
5-fold cross-validation, and holdout metrics (MAE, MSE, RMSE, R²).

We shallow-embed each stage over exact rationals (`ℚ`).  Tables are
lists of rows, a row being a list of column values.  Real-number facts
(square roots in the z-score and RMSE) are stated over `ℝ` via casts.
Library calls that are not part of the repository's own sources
(sklearn's `train_test_split`, `cross_val_score`/`KFold`, the pipeline
object, the metric functions) are modelled from the spec; each such
definition says so in its doc comment.
-/

/-! ## Definitions -/

/-! ### Feature engineering: gender encoding (cell 2, `replace`) -/

/-- A cell of the pandas table: after `replace` the `Gender` column may hold
either a string (unmatched value) or a number (matched value). -/
inductive CellValue where
  | str : String → CellValue
  | num : ℚ → CellValue
deriving DecidableEq

/-- `calories_data.replace({"Gender": {'male': 0, 'female': 1}})` restricted to
one cell: the exact string "male" becomes 0, the exact string "female" becomes
1, and every other value is returned unchanged (pandas `replace` leaves
non-matching values alone and raises no error). -/
def encodeGender (v : CellValue) : CellValue :=
  if v = CellValue.str "male" then CellValue.num 0
  else if v = CellValue.str "female" then CellValue.num 1
  else v

/-! ### Feature engineering: BMI (cell 2, `Height_m`, `BMI`) -/

/-- `calories_data['Height_m'] = calories_data['Height'] / 100`. -/
def heightM (height : ℚ) : ℚ := height / 100

/-- `calories_data['BMI'] = calories_data['Weight'] / (calories_data['Height_m'] ** 2)`. -/
def bmi (weight height : ℚ) : ℚ := weight / heightM height ^ 2

/-! ### Feature engineering: age buckets (cell 2, `pd.cut`) -/

/-- `pd.cut(calories_data['Age'], bins=[0, 18, 35, 50, 80], labels=[0, 1, 2, 3])`
on one value: `pd.cut` uses right-closed bins `(0,18], (18,35], (35,50], (50,80]`;
a value in no bin gets a missing (NaN) category, here `none`. -/
def ageGroup (a : ℚ) : Option ℕ :=
  if 0 < a ∧ a ≤ 18 then some 0
  else if 18 < a ∧ a ≤ 35 then some 1
  else if 35 < a ∧ a ≤ 50 then some 2
  else if 50 < a ∧ a ≤ 80 then some 3
  else none

/-! ### One-hot encoding of the age bucket (cell 4, `pd.get_dummies`) -/

/-- `pd.get_dummies(X, columns=['Age_Group'], drop_first=True)` on one record:
with categories `0,1,2,3` and the first dropped, the record keeps indicator
columns for categories 1, 2, 3; a missing category (`dummy_na` is left at its
default `False`) yields all-zero indicators. -/
def ageDummies (g : Option ℕ) : List ℚ :=
  [if g = some 1 then 1 else 0,
   if g = some 2 then 1 else 0,
   if g = some 3 then 1 else 0]

/-! ### Outlier filter (cell 3, `z_scores`)

`z_scores = np.abs(zscore(calories_data.select_dtypes(include=[np.number])))`
`calories_data = calories_data[(z_scores < 3).all(axis=1)]`

`scipy.stats.zscore` subtracts the column mean and divides by the column
standard deviation (population, `ddof=0`), both computed over the whole current
table in one batch pass.  The standard deviation is the square root of the
variance; since `|x - m| / sqrt v < 3` and `(x - m)² < 9·v` coincide for
`v > 0`, we embed the comparison in the squared form over `ℚ`.  For a
zero-variance column the code's z-score is a `0/0 = NaN` and `NaN < 3` is
`False` in numpy; in the squared form the comparison is `0 < 0`, likewise
`False`, so the embedding agrees with the code there too. -/

/-- Mean of one numeric column (the `mean` inside `zscore`, also `np.mean`). -/
def colMean (c : List ℚ) : ℚ := c.sum / c.length

/-- Population variance (`ddof=0`) of one numeric column: the square of the
standard deviation used by `zscore`. -/
def colVar (c : List ℚ) : ℚ := ((c.map (fun x => (x - colMean c) ^ 2)).sum) / c.length

/-- Number of numeric columns of the table. -/
def numCols (t : List (List ℚ)) : ℕ := (t.head?.getD []).length

/-- Column `j` of the table (missing entries read as 0). -/
def column (t : List (List ℚ)) (j : ℕ) : List ℚ := t.map (fun r => r.getD j 0)

/-- `(z_scores < 3).all(axis=1)` for one row: every column's squared deviation
is below nine times the column variance, the statistics being those of the
whole table `t`. -/
def keepRow (t : List (List ℚ)) (r : List ℚ) : Bool :=
  (List.range (numCols t)).all (fun j =>
    decide ((r.getD j 0 - colMean (column t j)) ^ 2 < 9 * colVar (column t j)))

/-- `calories_data = calories_data[(z_scores < 3).all(axis=1)]`: boolean-mask
row selection, with `z_scores` computed on the table being filtered. -/
def outlierFilter (t : List (List ℚ)) : List (List ℚ) := t.filter (keepRow t)

/-- Ten rows at 0 and one at 100: input of the non-idempotence counterexample. -/
def t11 : List (List ℚ) :=
  [[100], [0], [0], [0], [0], [0], [0], [0], [0], [0], [0]]

/-- What the first filter pass leaves of `t11`. -/
def t10 : List (List ℚ) := [[0], [0], [0], [0], [0], [0], [0], [0], [0], [0]]

/-- A three-row table whose single column is constant (zero variance). -/
def t3 : List (List ℚ) := [[5], [5], [5]]

/-! ### Holdout metrics (cell 6)

`mean_absolute_error`, `mean_squared_error`, `np.sqrt`, `r2_score` live in
sklearn/numpy, not in this repository; the formulas below are modelled from
the spec (average absolute error, average squared error, `1 − RSS/TSS`). -/

/-- Residual sum of squares `Σ (yᵢ − pᵢ)²`. -/
def rss (y p : List ℚ) : ℚ := ((y.zip p).map (fun q => (q.1 - q.2) ^ 2)).sum

/-- Total sum of squares `Σ (yᵢ − mean y)²`. -/
def tss (y : List ℚ) : ℚ := (y.map (fun v => (v - colMean y) ^ 2)).sum

/-- Modelled from the spec: `mean_absolute_error(Y_test, predictions)` —
the average absolute error over the holdout rows. -/
def mae (y p : List ℚ) : ℚ := ((y.zip p).map (fun q => |q.1 - q.2|)).sum / y.length

/-- Modelled from the spec: `mean_squared_error(Y_test, predictions)` —
the average squared error over the holdout rows. -/
def mse (y p : List ℚ) : ℚ := ((y.zip p).map (fun q => (q.1 - q.2) ^ 2)).sum / y.length

/-- Modelled from the spec: `r2_score(Y_test, predictions)` — the coefficient
of determination `1 − RSS/TSS`. -/
def r2Score (y p : List ℚ) : ℚ := 1 - rss y p / tss y

/-! ### The fitted pipeline and the evaluator (cells 5 and 6)

`Pipeline([('scaler', StandardScaler()), ('model', RandomForestRegressor(...))])`
is sklearn code, modelled from the spec: after `fit`, the pipeline holds the
per-feature standardization parameters learned from the training features and
a trained regressor, as one unit.  The regressor (100 bagged trees) is
abstracted as a function from a scaled row to a prediction. -/

/-- The standardization parameters a fitted `StandardScaler` stores: one mean
and one standard deviation per feature column, learned at fit time. -/
structure Scaler where
  mu : List ℚ
  sigma : List ℚ

/-- Applying a fitted scaler to one row: per-feature `(x − mean) / std` with
the stored parameters (no re-fitting). -/
def scaleRow (s : Scaler) (r : List ℚ) : List ℚ :=
  (r.zip (s.mu.zip s.sigma)).map (fun q => (q.1 - q.2.1) / q.2.2)

/-- Modelled from the spec: the Fit pipeline — learned standardization
parameters and the trained ensemble regressor stored together as one
inseparable unit. -/
structure FittedPipeline where
  scaler : Scaler
  model : List ℚ → ℚ

/-- `pipeline.predict(X)`: scale every row with the parameters learned at fit
time, then apply the trained regressor. -/
def pipelinePredict (pl : FittedPipeline) (X : List (List ℚ)) : List ℚ :=
  X.map (fun r => pl.model (scaleRow pl.scaler r))

/-- The three scalar metrics the evaluation cell computes (RMSE, being
`np.sqrt` of MSE, lives in `ℝ` and is stated in the theorem). -/
structure Metrics where
  mae : ℚ
  mse : ℚ
  r2 : ℚ

/-- The evaluation cell: predict on the holdout features with the fitted
pipeline and compute MAE, MSE and R² against the holdout labels.  The pair
result makes the frame property explicit: the pipeline that comes out is the
pipeline that went in. -/
def evaluate (pl : FittedPipeline) (X : List (List ℚ)) (y : List ℚ) :
    Metrics × FittedPipeline :=
  (⟨mae y (pipelinePredict pl X), mse y (pipelinePredict pl X),
    r2Score y (pipelinePredict pl X)⟩, pl)

/-! ### Cross-validation (cell 5, `cross_val_score`)

`cv_scores = cross_val_score(pipeline, X, Y, cv=5, scoring='r2')` — sklearn
code, modelled from the spec: `KFold(n_splits=5, shuffle=False)` splits the
passed dataset (the notebook passes the FULL pre-split `X`, `Y`) into 5
contiguous folds, the first `n % 5` folds one row larger; for each fold a
fresh clone of the pipeline is fitted on the other 4 folds and scored by R²
on the held-out fold. -/

/-- Number of rows of fold `i` under `KFold(n_splits=5)`. -/
def foldSize (n i : ℕ) : ℕ := n / 5 + if i < n % 5 then 1 else 0

/-- First row index of fold `i` under `KFold(n_splits=5)`. -/
def foldStart (n i : ℕ) : ℕ := i * (n / 5) + min i (n % 5)

/-- The held-out block of fold `i`. -/
def testFold {α : Type} (d : List α) (i : ℕ) : List α :=
  (d.drop (foldStart d.length i)).take (foldSize d.length i)

/-- The complement of fold `i`: what the fold's fresh pipeline clone trains on. -/
def trainFold {α : Type} (d : List α) (i : ℕ) : List α :=
  d.take (foldStart d.length i) ++ d.drop (foldStart d.length i + foldSize d.length i)

/-- The pipeline object as cross-validation sees it: its hyperparameters.
Cloning for a fold copies these; nothing else is shared. -/
structure PipelineSpec where
  nEstimators : ℕ
  randomState : ℕ

/-- The notebook's pipeline: `RandomForestRegressor(n_estimators=100,
random_state=42)` behind a `StandardScaler`. -/
def notebookPipeline : PipelineSpec := ⟨100, 42⟩

/-- Modelled from the spec: `cross_val_score(pipeline, X, Y, cv=5,
scoring='r2')` on a dataset of (features, label) rows.  The training of a
fold's fresh clone is abstracted as the function `fit` from hyperparameters
and training rows to a regressor.  The second component of the result is the
state of the pipeline object after the call: the unchanged input state. -/
def crossValScore (fit : PipelineSpec → List (List ℚ × ℚ) → (List ℚ → ℚ))
    (p : PipelineSpec) (d : List (List ℚ × ℚ)) : List ℚ × PipelineSpec :=
  ((List.range 5).map (fun i =>
      r2Score ((testFold d i).map Prod.snd)
        (((testFold d i).map Prod.fst).map (fit p (trainFold d i)))), p)

/-! ### Train/test split (cell 4, `train_test_split`)

`train_test_split(X, Y, test_size=0.2, random_state=2)` — sklearn code,
modelled from the spec: a pseudo-random permutation of the row indices,
fully determined by the seed, is cut after `ceil(0.2·n)` indices; the first
block selects the test rows, the rest the training rows, and the SAME index
lists select features and labels.  sklearn's Mersenne-Twister shuffle is not
part of this repository's sources; a deterministic seed-indexed rotation of
`[0..n)` stands in for it (any seed-determined permutation satisfies the
spec's contract). -/

/-- `ceil(0.2·n)`: sklearn's holdout size for `test_size=0.2`. -/
def testSize (n : ℕ) : ℕ := (n + 4) / 5

/-- Modelled from the spec: the seed-determined pseudo-random permutation of
the row indices `[0..n)`. -/
def permOf (seed n : ℕ) : List ℕ := (List.range n).rotate seed

/-- `X_train, X_test, Y_train, Y_test = train_test_split(X, Y, test_size=0.2,
random_state=seed)`, packaged as `((X_train, X_test), (Y_train, Y_test))`. -/
def trainTestSplit (seed : ℕ) (X : List (List ℚ)) (Y : List ℚ) :
    (List (List ℚ) × List (List ℚ)) × (List ℚ × List ℚ) :=
  ((((permOf seed X.length).drop (testSize X.length)).map (fun i => X.getD i []),
    ((permOf seed X.length).take (testSize X.length)).map (fun i => X.getD i [])),
   (((permOf seed X.length).drop (testSize X.length)).map (fun i => Y.getD i 0),
    ((permOf seed X.length).take (testSize X.length)).map (fun i => Y.getD i 0)))

/-! ## Theorems -/

/-! ### Gender encoding (C10) -/

/-- C10: the gender encoding maps exactly the string 'male' to 0 and
'female' to 1; every other cell value is returned unchanged (and the function
is total, so no error is raised on unrecognized values). -/
theorem encodeGender_spec :
    encodeGender (CellValue.str "male") = CellValue.num 0 ∧
    encodeGender (CellValue.str "female") = CellValue.num 1 ∧
    ∀ v : CellValue, v ≠ CellValue.str "male" → v ≠ CellValue.str "female" →
      encodeGender v = v := by
  refine ⟨rfl, rfl, ?_⟩
  intro v hm hf
  simp [encodeGender, hm, hf]

/-- Witness for C10: an unrecognized gender string passes through unchanged. -/
theorem encodeGender_spec_witness :
    encodeGender (CellValue.str "other") = CellValue.str "other" :=
  encodeGender_spec.2.2 (CellValue.str "other") (by decide) (by decide)

/-! ### BMI (C1) -/

/-- C1: for height > 0 and weight > 0, BMI equals weight divided by the square
of height-in-meters (height_cm/100), and is strictly positive. -/
theorem bmi_spec (weight height : ℚ) (hh : 0 < height) (hw : 0 < weight) :
    bmi weight height = weight / (height / 100) ^ 2 ∧ 0 < bmi weight height := by
  constructor
  · rfl
  · have hm : 0 < heightM height := by
      have : (0 : ℚ) < 100 := by norm_num
      exact div_pos hh this
    exact div_pos hw (pow_pos hm 2)

/-- Witness for C1 at weight 70 kg, height 175 cm. -/
theorem bmi_spec_witness : 0 < bmi 70 175 :=
  (bmi_spec 70 175 (by norm_num) (by norm_num)).2

/-! ### Age buckets (C2, C9) -/

/-- The first bin `(0,18]` of `pd.cut` carries label 0. -/
theorem ageGroup_bin0 (a : ℚ) (hl : 0 < a) (hr : a ≤ 18) : ageGroup a = some 0 := by
  unfold ageGroup
  rw [if_pos ⟨hl, hr⟩]

/-- The second bin `(18,35]` of `pd.cut` carries label 1. -/
theorem ageGroup_bin1 (a : ℚ) (hl : 18 < a) (hr : a ≤ 35) : ageGroup a = some 1 := by
  have k0 : ¬ (0 < a ∧ a ≤ 18) := by rintro ⟨-, h⟩; linarith
  unfold ageGroup
  rw [if_neg k0, if_pos ⟨hl, hr⟩]

/-- The third bin `(35,50]` of `pd.cut` carries label 2. -/
theorem ageGroup_bin2 (a : ℚ) (hl : 35 < a) (hr : a ≤ 50) : ageGroup a = some 2 := by
  have k0 : ¬ (0 < a ∧ a ≤ 18) := by rintro ⟨-, h⟩; linarith
  have k1 : ¬ (18 < a ∧ a ≤ 35) := by rintro ⟨-, h⟩; linarith
  unfold ageGroup
  rw [if_neg k0, if_neg k1, if_pos ⟨hl, hr⟩]

/-- The fourth bin `(50,80]` of `pd.cut` carries label 3. -/
theorem ageGroup_bin3 (a : ℚ) (hl : 50 < a) (hr : a ≤ 80) : ageGroup a = some 3 := by
  have k0 : ¬ (0 < a ∧ a ≤ 18) := by rintro ⟨-, h⟩; linarith
  have k1 : ¬ (18 < a ∧ a ≤ 35) := by rintro ⟨-, h⟩; linarith
  have k2 : ¬ (35 < a ∧ a ≤ 50) := by rintro ⟨-, h⟩; linarith
  unfold ageGroup
  rw [if_neg k0, if_neg k1, if_neg k2, if_pos ⟨hl, hr⟩]

/-- A value in none of the four bins gets a missing category. -/
theorem ageGroup_none (a : ℚ) (h : a ≤ 0 ∨ 80 < a) : ageGroup a = none := by
  rcases h with h | h
  · have k0 : ¬ (0 < a ∧ a ≤ 18) := by rintro ⟨h1, -⟩; linarith
    have k1 : ¬ (18 < a ∧ a ≤ 35) := by rintro ⟨h1, -⟩; linarith
    have k2 : ¬ (35 < a ∧ a ≤ 50) := by rintro ⟨h1, -⟩; linarith
    have k3 : ¬ (50 < a ∧ a ≤ 80) := by rintro ⟨h1, -⟩; linarith
    unfold ageGroup
    rw [if_neg k0, if_neg k1, if_neg k2, if_neg k3]
  · have k0 : ¬ (0 < a ∧ a ≤ 18) := by rintro ⟨-, h1⟩; linarith
    have k1 : ¬ (18 < a ∧ a ≤ 35) := by rintro ⟨-, h1⟩; linarith
    have k2 : ¬ (35 < a ∧ a ≤ 50) := by rintro ⟨-, h1⟩; linarith
    have k3 : ¬ (50 < a ∧ a ≤ 80) := by rintro ⟨-, h1⟩; linarith
    unfold ageGroup
    rw [if_neg k0, if_neg k1, if_neg k2, if_neg k3]

/-- C2: the age-bucket assignment uses right-closed bins `(0,18], (18,35],
(35,50], (50,80]` with labels 0–3: on `[1,80]` it is total (exactly one bucket,
uniqueness being inherent in the function), each of the four bins maps to its
label, and every age outside `[0,80]` gets a missing bucket. -/
theorem ageGroup_spec (a : ℚ) :
    (1 ≤ a → a ≤ 80 → ∃! b : ℕ, ageGroup a = some b) ∧
    (0 < a → a ≤ 18 → ageGroup a = some 0) ∧
    (18 < a → a ≤ 35 → ageGroup a = some 1) ∧
    (35 < a → a ≤ 50 → ageGroup a = some 2) ∧
    (50 < a → a ≤ 80 → ageGroup a = some 3) ∧
    (a < 0 ∨ 80 < a → ageGroup a = none) := by
  refine ⟨?_, ageGroup_bin0 a, ageGroup_bin1 a, ageGroup_bin2 a, ageGroup_bin3 a,
    fun h => ageGroup_none a (h.imp le_of_lt id)⟩
  intro h1 h80
  have hex : ∃ b : ℕ, ageGroup a = some b := by
    by_cases c1 : a ≤ 18
    · exact ⟨0, ageGroup_bin0 a (by linarith) c1⟩
    · push_neg at c1
      by_cases c2 : a ≤ 35
      · exact ⟨1, ageGroup_bin1 a c1 c2⟩
      · push_neg at c2
        by_cases c3 : a ≤ 50
        · exact ⟨2, ageGroup_bin2 a c2 c3⟩
        · push_neg at c3
          exact ⟨3, ageGroup_bin3 a c3 h80⟩
  obtain ⟨b, hb⟩ := hex
  exact ⟨b, hb, fun y hy => by rw [hb] at hy; exact (Option.some_inj.mp hy).symm⟩

/-- Witness for C2: age 20 lands in bucket 1, age 100 gets no bucket. -/
theorem ageGroup_spec_witness : ageGroup 20 = some 1 ∧ ageGroup 100 = none :=
  ⟨(ageGroup_spec 20).2.2.1 (by norm_num) (by norm_num),
   (ageGroup_spec 100).2.2.2.2.2 (Or.inr (by norm_num))⟩

/-- C9: an age outside `(0,80]` is not rejected: it gets a missing bucket, its
three age-group indicator columns after `get_dummies(drop_first=True)` are all
zero, and the resulting indicators are identical to those of any record in the
`(0,18]` bucket. -/
theorem ageDummies_out_of_range (a : ℚ) (ha : a ≤ 0 ∨ 80 < a) :
    ageGroup a = none ∧
    ageDummies (ageGroup a) = [0, 0, 0] ∧
    ∀ b : ℚ, 0 < b → b ≤ 18 → ageDummies (ageGroup b) = ageDummies (ageGroup a) := by
  have hnone : ageGroup a = none := ageGroup_none a ha
  refine ⟨hnone, by simp [hnone, ageDummies], ?_⟩
  intro b hb0 hb18
  have hb : ageGroup b = some 0 := ageGroup_bin0 b hb0 hb18
  simp [hb, hnone, ageDummies]

/-- Witness for C9: age 100 is bucket-less and its indicators match age 10's. -/
theorem ageDummies_out_of_range_witness :
    ageDummies (ageGroup 100) = [0, 0, 0] ∧
    ageDummies (ageGroup 10) = ageDummies (ageGroup 100) :=
  ⟨(ageDummies_out_of_range 100 (Or.inr (by norm_num))).2.1,
   (ageDummies_out_of_range 100 (Or.inr (by norm_num))).2.2 10 (by norm_num) (by norm_num)⟩

/-! ### Outlier filter (C3) -/

/-- The column variance is a sum of squares over a nonnegative count. -/
theorem colVar_nonneg (c : List ℚ) : 0 ≤ colVar c := by
  unfold colVar
  apply div_nonneg
  · apply List.sum_nonneg
    intro x hx
    simp only [List.mem_map] at hx
    obtain ⟨y, -, rfl⟩ := hx
    positivity
  · exact_mod_cast Nat.zero_le _

/-- The row mask, unfolded to a statement over all numeric columns. -/
theorem keepRow_iff (t : List (List ℚ)) (r : List ℚ) :
    keepRow t r = true ↔
      ∀ j < numCols t,
        (r.getD j 0 - colMean (column t j)) ^ 2 < 9 * colVar (column t j) := by
  simp [keepRow]

/-- For a nonnegative variance, the squared-deviation comparison coincides with
the absolute z-score comparison, the standard deviation being `√v`. -/
theorem sq_lt_iff_abs_lt_sqrt (a v : ℝ) (hv : 0 ≤ v) :
    a ^ 2 < 9 * v ↔ |a| < 3 * Real.sqrt v := by
  have h9 : (9 : ℝ) * v = (3 * Real.sqrt v) ^ 2 := by
    rw [mul_pow, Real.sq_sqrt hv]
    norm_num
  rw [h9]
  constructor
  · intro h
    exact abs_lt_of_sq_lt_sq h (by positivity)
  · intro h
    obtain ⟨h1, h2⟩ := abs_lt.mp h
    exact sq_lt_sq' h1 h2

/-- C3: the Outlier Filter retains exactly the rows of the current table in
which every numeric column's z-score — the deviation from the column mean
divided by the column standard deviation `√variance`, both computed over the
whole table in one batch pass — has absolute value below 3; a row is dropped
as soon as ANY single column flags it (joint filter). -/
theorem outlierFilter_mem_iff (t : List (List ℚ)) (r : List ℚ) :
    r ∈ outlierFilter t ↔
      r ∈ t ∧ ∀ j < numCols t,
        |((r.getD j 0 : ℚ) : ℝ) - ((colMean (column t j) : ℚ) : ℝ)| <
          3 * Real.sqrt ((colVar (column t j) : ℚ) : ℝ) := by
  rw [outlierFilter, List.mem_filter, keepRow_iff]
  apply and_congr_right
  intro _
  apply forall_congr'
  intro j
  apply imp_congr_right
  intro hj
  have hv : (0 : ℝ) ≤ ((colVar (column t j) : ℚ) : ℝ) := by
    exact_mod_cast colVar_nonneg (column t j)
  rw [← sq_lt_iff_abs_lt_sqrt _ _ hv]
  rw [show ((r.getD j 0 : ℚ) : ℝ) - ((colMean (column t j) : ℚ) : ℝ)
      = (((r.getD j 0 - colMean (column t j)) : ℚ) : ℝ) by push_cast; ring]
  constructor
  · intro h
    exact_mod_cast h
  · intro h
    exact_mod_cast h

/-- Witness for C3: the characterization instantiated at a two-row table. -/
theorem outlierFilter_mem_iff_witness :
    ([1] ∈ outlierFilter [[1], [2]] ↔
      [1] ∈ ([[1], [2]] : List (List ℚ)) ∧ ∀ j < numCols [[1], [2]],
        |((([1] : List ℚ).getD j 0 : ℚ) : ℝ) - ((colMean (column [[1], [2]] j) : ℚ) : ℝ)| <
          3 * Real.sqrt ((colVar (column [[1], [2]] j) : ℚ) : ℝ)) :=
  outlierFilter_mem_iff [[1], [2]] [1]

/-! ### Non-idempotence of the outlier filter (C4)

On `t11` the first pass computes mean 100/11 and variance 100000/121; the
squared deviation of the 100-row, (1000/11)² = 1000000/121, exceeds
9·variance = 900000/121, so that row is dropped and the ten 0-rows stay.  The
second pass then sees a constant column (variance 0), no squared deviation can
be below 9·0, and every remaining row is dropped. -/

/-- Column statistics of `t11`: mean 100/11. -/
theorem mean_t11 : colMean (column t11 0) = 100 / 11 := by
  have h : column t11 0 = [100, 0, 0, 0, 0, 0, 0, 0, 0, 0, 0] := rfl
  rw [h]
  norm_num [colMean]

/-- Column statistics of `t11`: population variance 100000/121. -/
theorem var_t11 : colVar (column t11 0) = 100000 / 121 := by
  have h : column t11 0 = [100, 0, 0, 0, 0, 0, 0, 0, 0, 0, 0] := rfl
  rw [colVar, h, show colMean [100, 0, 0, 0, 0, 0, 0, 0, 0, 0, 0] = 100 / 11 from mean_t11]
  norm_num

/-- The row mask of `t11`, with its statistics filled in. -/
theorem keep_t11 (r : List ℚ) :
    keepRow t11 r = decide ((r.getD 0 0 - 100 / 11) ^ 2 < 9 * (100000 / 121)) := by
  rw [keepRow, show numCols t11 = 1 from rfl, show List.range 1 = [0] from rfl]
  simp only [List.all_cons, List.all_nil, Bool.and_true]
  rw [mean_t11, var_t11]

/-- The 100-row is flagged by the first pass. -/
theorem keep_t11_100 : keepRow t11 [100] = false := by
  rw [keep_t11]
  norm_num

/-- The 0-rows survive the first pass. -/
theorem keep_t11_0 : keepRow t11 [0] = true := by
  rw [keep_t11]
  norm_num

/-- First pass on `t11`: only the 100-row goes. -/
theorem outlierFilter_t11 : outlierFilter t11 = t10 := by
  show List.filter (keepRow t11) [[100], [0], [0], [0], [0], [0], [0], [0], [0], [0], [0]] = t10
  simp only [List.filter_cons, List.filter_nil, keep_t11_100, keep_t11_0]
  simp [t10]

/-- The column of `t10` is constant, so its mean is 0 … -/
theorem mean_t10 : colMean (column t10 0) = 0 := by
  have h : column t10 0 = [0, 0, 0, 0, 0, 0, 0, 0, 0, 0] := rfl
  rw [h]
  norm_num [colMean]

/-- … and its variance is 0. -/
theorem var_t10 : colVar (column t10 0) = 0 := by
  have h : column t10 0 = [0, 0, 0, 0, 0, 0, 0, 0, 0, 0] := rfl
  rw [colVar, h, show colMean [0, 0, 0, 0, 0, 0, 0, 0, 0, 0] = 0 from mean_t10]
  norm_num

/-- With variance 0 the mask rejects the remaining rows of `t10`. -/
theorem keep_t10_0 : keepRow t10 [0] = false := by
  rw [keepRow, show numCols t10 = 1 from rfl, show List.range 1 = [0] from rfl]
  simp only [List.all_cons, List.all_nil, Bool.and_true]
  rw [mean_t10, var_t10]
  norm_num

/-- Second pass on the output of the first: everything goes. -/
theorem outlierFilter_t10 : outlierFilter t10 = [] := by
  show List.filter (keepRow t10) [[0], [0], [0], [0], [0], [0], [0], [0], [0], [0]] = []
  simp only [List.filter_cons, List.filter_nil, keep_t10_0]
  simp

/-- Counterexample to C4: the Outlier Filter is not idempotent.  On `t11`
(ten 0-rows and one 100-row) the first pass keeps the ten 0-rows, and the
second pass — whose recomputed statistics give the column variance 0 — drops
all ten of them. -/
theorem outlierFilter_not_idempotent :
    outlierFilter (outlierFilter t11) ≠ outlierFilter t11 := by
  rw [outlierFilter_t11, outlierFilter_t10]
  simp [t10]

/-- C4 (amended): re-applying the Outlier Filter to its own output never adds
or reorders rows — the second output is a subsequence of the first — but it
may drop further rows (as `t11` shows), because the second pass recomputes the
column statistics on the already-filtered table. -/
theorem outlierFilter_second_pass_sublist (t : List (List ℚ)) :
    (outlierFilter (outlierFilter t)).Sublist (outlierFilter t) :=
  List.filter_sublist _

/-! ### Zero-variance columns (C5)

scipy's `zscore` on a zero-variance column computes `0/0 = NaN`, and
`NaN < 3` is `False` in numpy, so `(z_scores < 3).all(axis=1)` is `False` for
every row: far from never flagging anything, a zero-variance column makes the
filter drop the whole table.  In the squared embedding the comparison is
`(x−mean)² < 9·0`, false for every `x`, with the same effect. -/

/-- Counterexample to C5: `t3` has a zero-variance numeric column, the table
is nonempty, and the filter drops every row — the zero-variance column acts
as an outlier contributor for all rows at once. -/
theorem zero_variance_flags_rows :
    colVar (column t3 0) = 0 ∧ t3 ≠ [] ∧ outlierFilter t3 = [] := by
  have hcol : column t3 0 = [5, 5, 5] := rfl
  have hmean : colMean (column t3 0) = 5 := by
    rw [hcol]
    norm_num [colMean]
  have hvar : colVar (column t3 0) = 0 := by
    rw [colVar, hcol, show colMean [5, 5, 5] = 5 by rw [← hcol, hmean]]
    norm_num
  have hkeep : keepRow t3 [5] = false := by
    rw [keepRow, show numCols t3 = 1 from rfl, show List.range 1 = [0] from rfl]
    simp only [List.all_cons, List.all_nil, Bool.and_true]
    rw [hmean, hvar]
    norm_num
  refine ⟨hvar, by simp [t3], ?_⟩
  show List.filter (keepRow t3) [[5], [5], [5]] = []
  simp only [List.filter_cons, List.filter_nil, hkeep]
  simp

/-- C5 (amended): a zero-variance numeric column is flagged for every row —
no squared deviation is below nine times a zero variance — so the filter
returns the empty table (matching the code, where the column's z-scores are
NaN and `NaN < 3` is false for every row). -/
theorem zero_variance_drops_all (t : List (List ℚ)) (j : ℕ)
    (hj : j < numCols t) (hv : colVar (column t j) = 0) :
    outlierFilter t = [] := by
  rw [outlierFilter, List.filter_eq_nil_iff]
  intro r hr hkeep
  have h := (keepRow_iff t r).mp hkeep j hj
  rw [hv] at h
  have h0 : (0 : ℚ) ≤ (r.getD j 0 - colMean (column t j)) ^ 2 := sq_nonneg _
  linarith

/-- Witness for C5 (amended) on a two-row constant table. -/
theorem zero_variance_drops_all_witness : outlierFilter [[0], [0]] = [] :=
  zero_variance_drops_all [[0], [0]] 0 (by decide) (by simp [colVar, colMean, column])

/-! ### Evaluator (C8) -/

/-- The residual sum of squares is a sum of squares. -/
theorem rss_nonneg (y p : List ℚ) : 0 ≤ rss y p := by
  apply List.sum_nonneg
  intro x hx
  simp only [List.mem_map] at hx
  obtain ⟨q, -, rfl⟩ := hx
  positivity

/-- The mean squared error is nonnegative, so its square root is exact. -/
theorem mse_nonneg (y p : List ℚ) : 0 ≤ mse y p := by
  show 0 ≤ rss y p / (y.length : ℚ)
  apply div_nonneg (rss_nonneg y p)
  exact_mod_cast Nat.zero_le _

/-- C8: the Evaluator predicts with the standardization parameters stored in
the fitted pipeline (never re-fit on the holdout rows: the pipeline comes out
exactly as it went in, and the predictions use `scaleRow pl.scaler`), and
computes the mean absolute error, the mean squared error (RSS over the row
count), RMSE as the square root of the MSE (characterized by square and sign),
and R² as `1 − RSS/TSS`. -/
theorem evaluate_spec (pl : FittedPipeline) (X : List (List ℚ)) (y : List ℚ) :
    (evaluate pl X y).2 = pl ∧
    (evaluate pl X y).1.mae =
      ((y.zip (pipelinePredict pl X)).map (fun q => |q.1 - q.2|)).sum / y.length ∧
    (evaluate pl X y).1.mse = rss y (pipelinePredict pl X) / y.length ∧
    Real.sqrt ((evaluate pl X y).1.mse : ℝ) ^ 2 = ((evaluate pl X y).1.mse : ℝ) ∧
    0 ≤ Real.sqrt ((evaluate pl X y).1.mse : ℝ) ∧
    (evaluate pl X y).1.r2 = 1 - rss y (pipelinePredict pl X) / tss y ∧
    pipelinePredict pl X = X.map (fun r => pl.model (scaleRow pl.scaler r)) := by
  refine ⟨rfl, rfl, rfl, ?_, Real.sqrt_nonneg _, rfl, rfl⟩
  have h : (0 : ℝ) ≤ ((evaluate pl X y).1.mse : ℝ) := by
    show (0 : ℝ) ≤ ((mse y (pipelinePredict pl X) : ℚ) : ℝ)
    exact_mod_cast mse_nonneg y (pipelinePredict pl X)
  exact Real.sq_sqrt h

/-! ### Cross-validation (C7) -/

/-- Fold 0 starts at row 0. -/
theorem foldStart_zero (n : ℕ) : foldStart n 0 = 0 := by
  simp [foldStart]

/-- Consecutive folds are adjacent: each fold starts where the previous ends. -/
theorem foldStart_succ (n i : ℕ) : foldStart n (i + 1) = foldStart n i + foldSize n i := by
  unfold foldStart foldSize
  rcases lt_or_ge i (n % 5) with h | h
  · rw [if_pos h, min_eq_left (le_of_lt h), min_eq_left h, Nat.succ_mul,
      Nat.succ_eq_add_one]
    ring
  · rw [if_neg (not_lt.mpr h), min_eq_right h,
      min_eq_right (le_trans h (Nat.le_succ i)), Nat.succ_mul]
    omega

/-- After the fifth fold every row is covered. -/
theorem foldStart_five (n : ℕ) : foldStart n 5 = n := by
  unfold foldStart
  have h5 : n % 5 < 5 := Nat.mod_lt _ (by norm_num)
  rw [min_eq_right (le_of_lt h5)]
  omega

/-- The first `k` folds are exactly the first `foldStart n k` rows. -/
theorem join_testFolds_aux {α : Type} (d : List α) :
    ∀ k : ℕ, ((List.range k).map (fun i => testFold d i)).flatten
      = d.take (foldStart d.length k)
  | 0 => by simp [foldStart_zero]
  | k + 1 => by
      rw [List.range_succ, List.map_append, List.flatten_append, join_testFolds_aux d k]
      simp only [List.map_cons, List.map_nil, List.flatten_cons, List.flatten_nil,
        List.append_nil]
      rw [testFold, foldStart_succ, List.take_add]

/-- The five held-out folds, in order, partition the whole dataset. -/
theorem join_testFolds {α : Type} (d : List α) :
    ((List.range 5).map (fun i => testFold d i)).flatten = d := by
  rw [join_testFolds_aux d 5, foldStart_five, List.take_length]

/-- Each fold's held-out block and training block together are a permutation
of the whole dataset. -/
theorem testFold_append_trainFold_perm {α : Type} (d : List α) (i : ℕ) :
    (testFold d i ++ trainFold d i).Perm d := by
  unfold testFold trainFold
  have hd : d.take (foldStart d.length i) ++
      ((d.drop (foldStart d.length i)).take (foldSize d.length i) ++
        d.drop (foldStart d.length i + foldSize d.length i)) = d := by
    rw [← List.drop_drop]
    rw [List.take_append_drop, List.take_append_drop]
  have h1 : ((d.drop (foldStart d.length i)).take (foldSize d.length i) ++
      (d.take (foldStart d.length i) ++
        d.drop (foldStart d.length i + foldSize d.length i))).Perm
      (d.take (foldStart d.length i) ++
        ((d.drop (foldStart d.length i)).take (foldSize d.length i) ++
          d.drop (foldStart d.length i + foldSize d.length i))) := by
    rw [← List.append_assoc, ← List.append_assoc]
    exact List.perm_append_comm.append_right _
  rw [hd] at h1
  exact h1

/-- Reading off a mapped index range at a position below the bound. -/
theorem getD_range_map {β : Type} (f : ℕ → β) (n i : ℕ) (hi : i < n) (d : β) :
    ((List.range n).map f).getD i d = f i := by
  rw [List.getD_eq_getElem?_getD, List.getElem?_map, List.getElem?_range hi]
  rfl

/-- C7: `cross_val_score` leaves the pipeline object's state unchanged (purely
diagnostic); it returns exactly 5 scores; score `i` is the coefficient of
determination, on the labels of held-out fold `i`, of the predictions of a
regressor trained by a fresh clone on the other folds; the 5 held-out folds
partition the passed dataset (the notebook passes the FULL pre-split one), each
fold's train+test blocks being a permutation of it; and the printed average is
the sum of the 5 scores over 5. -/
theorem crossValScore_spec (fit : PipelineSpec → List (List ℚ × ℚ) → (List ℚ → ℚ))
    (p : PipelineSpec) (d : List (List ℚ × ℚ)) :
    (crossValScore fit p d).2 = p ∧
    (crossValScore fit p d).1.length = 5 ∧
    (∀ i, i < 5 → (crossValScore fit p d).1.getD i 0 =
      r2Score ((testFold d i).map Prod.snd)
        (((testFold d i).map Prod.fst).map (fit p (trainFold d i)))) ∧
    ((List.range 5).map (fun i => testFold d i)).flatten = d ∧
    (∀ i, i < 5 → (testFold d i ++ trainFold d i).Perm d) ∧
    colMean (crossValScore fit p d).1 = (crossValScore fit p d).1.sum / 5 := by
  refine ⟨rfl, by simp [crossValScore], ?_, join_testFolds d,
    fun i _ => testFold_append_trainFold_perm d i, ?_⟩
  · intro i hi
    show ((List.range 5).map (fun i => r2Score ((testFold d i).map Prod.snd)
      (((testFold d i).map Prod.fst).map (fit p (trainFold d i))))).getD i 0 = _
    exact getD_range_map _ 5 i hi 0
  · show colMean ((List.range 5).map (fun i => r2Score ((testFold d i).map Prod.snd)
      (((testFold d i).map Prod.fst).map (fit p (trainFold d i)))))
      = ((List.range 5).map (fun i => r2Score ((testFold d i).map Prod.snd)
      (((testFold d i).map Prod.fst).map (fit p (trainFold d i))))).sum / 5
    unfold colMean
    rw [List.length_map, List.length_range]
    norm_num

/-- Witness for C7 on a one-row dataset and a constant regressor. -/
theorem crossValScore_spec_witness :
    (crossValScore (fun _ _ => fun _ => 0) notebookPipeline [([1], 2)]).2
      = notebookPipeline ∧
    (crossValScore (fun _ _ => fun _ => 0) notebookPipeline [([1], 2)]).1.length = 5 :=
  ⟨(crossValScore_spec (fun _ _ => fun _ => 0) notebookPipeline [([1], 2)]).1,
   (crossValScore_spec (fun _ _ => fun _ => 0) notebookPipeline [([1], 2)]).2.1⟩

/-! ### Train/test split (C6) -/

/-- Selecting every index of a list in order gives the list back. -/
theorem map_getD_range {α : Type} (l : List α) (d : α) :
    (List.range l.length).map (fun i => l.getD i d) = l := by
  apply List.ext_getElem
  · simp
  · intro i h1 h2
    simp only [List.getElem_map, List.getElem_range]
    rw [List.getD_eq_getElem?_getD, List.getElem?_eq_getElem h2]
    rfl

/-- C6: the Splitter is a pure function of the seed and the input (two runs on
equal inputs with equal seeds give identical partitions); the training block
holds 80% of the rows and the holdout block the remaining 20% (`ceil(n/5)`);
train and test rows together are a permutation of the feature matrix, and
train and test labels together of the label column; and features and labels
are selected by the SAME index lists, so the row/label correspondence is
preserved on both sides of the split. -/
theorem trainTestSplit_spec (seed : ℕ) (X : List (List ℚ)) (Y : List ℚ)
    (hY : Y.length = X.length) :
    (∀ seed2 X2 Y2, seed2 = seed → X2 = X → Y2 = Y →
      trainTestSplit seed2 X2 Y2 = trainTestSplit seed X Y) ∧
    (trainTestSplit seed X Y).1.1.length = X.length - testSize X.length ∧
    (trainTestSplit seed X Y).1.2.length = testSize X.length ∧
    (trainTestSplit seed X Y).2.1.length = X.length - testSize X.length ∧
    (trainTestSplit seed X Y).2.2.length = testSize X.length ∧
    ((trainTestSplit seed X Y).1.1 ++ (trainTestSplit seed X Y).1.2).Perm X ∧
    ((trainTestSplit seed X Y).2.1 ++ (trainTestSplit seed X Y).2.2).Perm Y ∧
    (trainTestSplit seed X Y).1.1.zip (trainTestSplit seed X Y).2.1 =
      ((permOf seed X.length).drop (testSize X.length)).map
        (fun i => (X.getD i [], Y.getD i 0)) ∧
    (trainTestSplit seed X Y).1.2.zip (trainTestSplit seed X Y).2.2 =
      ((permOf seed X.length).take (testSize X.length)).map
        (fun i => (X.getD i [], Y.getD i 0)) := by
  have hlenP : (permOf seed X.length).length = X.length := by
    simp [permOf]
  have hts : testSize X.length ≤ X.length := by
    unfold testSize
    omega
  have hperm : ((permOf seed X.length).drop (testSize X.length) ++
      (permOf seed X.length).take (testSize X.length)).Perm (List.range X.length) :=
    (List.perm_append_comm).trans
      (by rw [List.take_append_drop]; exact List.rotate_perm _ _)
  refine ⟨?_, ?_, ?_, ?_, ?_, ?_, ?_, ?_, ?_⟩
  · rintro s2 X2 Y2 rfl rfl rfl
    rfl
  · show (((permOf seed X.length).drop (testSize X.length)).map _).length = _
    rw [List.length_map, List.length_drop, hlenP]
  · show (((permOf seed X.length).take (testSize X.length)).map _).length = _
    rw [List.length_map, List.length_take, hlenP, min_eq_left hts]
  · show (((permOf seed X.length).drop (testSize X.length)).map _).length = _
    rw [List.length_map, List.length_drop, hlenP]
  · show (((permOf seed X.length).take (testSize X.length)).map _).length = _
    rw [List.length_map, List.length_take, hlenP, min_eq_left hts]
  · show ((((permOf seed X.length).drop (testSize X.length)).map _) ++
      (((permOf seed X.length).take (testSize X.length)).map _)).Perm X
    rw [← List.map_append]
    have h2 := hperm.map (fun i => X.getD i [])
    rw [map_getD_range X []] at h2
    exact h2
  · show ((((permOf seed X.length).drop (testSize X.length)).map _) ++
      (((permOf seed X.length).take (testSize X.length)).map _)).Perm Y
    rw [← List.map_append]
    have h2 := hperm.map (fun i => Y.getD i 0)
    rw [show List.range X.length = List.range Y.length by rw [hY]] at h2
    rw [map_getD_range Y 0] at h2
    exact h2
  · exact List.zip_map' _ _ _
  · exact List.zip_map' _ _ _

/-- Witness for C6 on five rows with seed 2 (the notebook's `random_state`):
four training rows, one holdout row. -/
theorem trainTestSplit_spec_witness :
    (trainTestSplit 2 [[1], [2], [3], [4], [5]] [10, 20, 30, 40, 50]).1.1.length
      = 5 - testSize 5 ∧
    (trainTestSplit 2 [[1], [2], [3], [4], [5]] [10, 20, 30, 40, 50]).1.2.length
      = testSize 5 :=
  ⟨(trainTestSplit_spec 2 [[1], [2], [3], [4], [5]] [10, 20, 30, 40, 50] rfl).2.1,
   (trainTestSplit_spec 2 [[1], [2], [3], [4], [5]] [10, 20, 30, 40, 50] rfl).2.2.1⟩
